import Mathlib

/-!
Shallow embedding of the phase-looper controller from
`src/src/hooks/usePhaseLooper.ts`.

The hook is a single-threaded event-driven state machine owning all audio
and recording resources.  We model it as an explicit transition system:

* `PhaseLooperState` mirrors the observable snapshot type of the source.
* `Sys` carries the snapshot together with the mutable refs of the hook
  (`audioCtxRef`, `streamRef`, `recorderRef`, `chunksRef`,
  `phraseBufferRef`, `source1Ref`, `source2Ref`, `gainRef`,
  `ignoreNextOnStopRef`), the platform-side recorder state, the queue of
  recorder lifecycle callbacks still to fire, the in-flight asynchronous
  stages (the pending `enable` continuation, the `blob.arrayBuffer` await
  and the `decodeAudioData` await of the `onstop` handler), and monotone
  counters that count every platform handle ever constructed.
* Each operation of the hook becomes a total Lean function on `Sys`;
  asynchronous completions (promise resolutions, recorder events) become
  separate events whose outcome is supplied by the environment, exactly as
  the platform supplies it to the hook.

Opaque platform objects are modelled by the attributes the hook sets on
them: an `AudioContext` by its monotone clock (a sequence of `currentTime`
values indexed by how often the clock was read), a buffer source node by
its buffer, loop flag, playback rate, the pan of the `StereoPannerNode` it
is routed through, its start time and its stopped/connected markers, a
gain node by its gain value and its connection to the destination.
Nodes torn down by `stopPhase` are moved to ghost graveyard lists so that
teardown is observable; this instrumentation alters no behaviour.
-/

set_option autoImplicit false

namespace PhaseLooper

/-- The runtime capabilities probed by `getInitialState` in the source:
`typeof window`, `window.AudioContext`, `typeof navigator`,
`navigator.mediaDevices?.getUserMedia` and `window.MediaRecorder`. -/
structure Platform where
  hasWindow : Bool
  hasAudioContext : Bool
  hasNavigator : Bool
  hasGetUserMedia : Bool
  hasMediaRecorder : Bool
  deriving DecidableEq

/-- Observable snapshot, the `PhaseLooperState` type of the source. -/
structure PhaseLooperState where
  isSupported : Bool
  isEnabling : Bool
  isEnabled : Bool
  isRecording : Bool
  hasPhrase : Bool
  isPhasePlaying : Bool
  status : String
  deriving DecidableEq

/-- `getInitialState` of the source: the capability check is the
conjunction of the five runtime probes; every flag is false and the status
string empty. -/
def getInitialState (p : Platform) : PhaseLooperState :=
  { isSupported := p.hasWindow && p.hasAudioContext && p.hasNavigator
      && p.hasGetUserMedia && p.hasMediaRecorder
    isEnabling := false
    isEnabled := false
    isRecording := false
    hasPhrase := false
    isPhasePlaying := false
    status := "" }

/-- The `UsePhaseLooperOptions` of the source, with the hook defaults. -/
structure UsePhaseLooperOptions where
  basePlaybackRate : ℚ := 1
  fastPlaybackRate : ℚ := 1.003
  gain : ℚ := 0.8
  panLeft : ℚ := -0.8
  panRight : ℚ := 0.8
  deriving DecidableEq

/-- A decoded phrase (`AudioBuffer`); its duration is modelled in
hundredths of a second so that `duration.toFixed(2)` is exact. -/
structure Phrase where
  durCents : Nat
  deriving DecidableEq

/-- An `AudioContext`.  `currentTime` advances in real time even between
two consecutive synchronous reads, so reads are modelled by an oracle
sequence `timeSeq` together with a read counter. -/
structure CtxObj where
  timeSeq : Nat → ℚ
  reads : Nat

/-- Read `audioCtx.currentTime` once: the value at the current read index,
and the context with its read counter advanced. -/
def readCurrentTime (c : CtxObj) : ℚ × CtxObj :=
  (c.timeSeq c.reads, { c with reads := c.reads + 1 })

/-- An `AudioBufferSourceNode` as configured by `startPhase`, with the pan
of the `StereoPannerNode` it is routed through and ghost markers for the
teardown performed by `stopPhase`. -/
structure SrcNode where
  id : Nat
  buffer : Phrase
  loop : Bool
  playbackRate : ℚ
  pan : ℚ
  startedAt : ℚ
  stopped : Bool
  connected : Bool
  deriving DecidableEq

/-- A `GainNode` as configured by `startPhase`. -/
structure GainObj where
  id : Nat
  gainValue : ℚ
  toDestination : Bool
  deriving DecidableEq

/-- Platform-side `MediaRecorder.state` (this app never pauses). -/
inductive RecState where
  | inactive
  | recording
  deriving DecidableEq

/-- A recorder lifecycle callback waiting to fire. -/
inductive RecEv where
  | onstart
  | onstop
  deriving DecidableEq

/-- The whole mutable world of the hook (observable snapshot, refs,
platform recorder state, pending asynchronous stages, ghost
instrumentation).  Counters count handles ever constructed; stream and
recorder handles are identified by the counter value at construction. -/
structure Sys where
  plat : Platform
  st : PhaseLooperState
  audioCtx : Option CtxObj
  stream : Option Nat
  recorder : Option Nat
  chunks : List Nat
  phrase : Option Phrase
  source1 : Option SrcNode
  source2 : Option SrcNode
  gainN : Option GainObj
  ignoreNextOnStop : Bool
  recSt : RecState
  pendingEnable : Bool
  recQueue : List RecEv
  pendingBlob : Bool
  pendingDecode : Bool
  torn : List SrcNode
  tornGain : List GainObj
  ctxCount : Nat
  streamCount : Nat
  recCount : Nat
  srcCount : Nat
  gainCount : Nat

/-- The controller at construction time. -/
def init (p : Platform) : Sys :=
  { plat := p
    st := getInitialState p
    audioCtx := none
    stream := none
    recorder := none
    chunks := []
    phrase := none
    source1 := none
    source2 := none
    gainN := none
    ignoreNextOnStop := false
    recSt := .inactive
    pendingEnable := false
    recQueue := []
    pendingBlob := false
    pendingDecode := false
    torn := []
    tornGain := []
    ctxCount := 0
    streamCount := 0
    recCount := 0
    srcCount := 0
    gainCount := 0 }

/- Status strings, verbatim from the source. -/

def unsupportedMsg : String :=
  "Web Audio or MediaRecorder not supported in this browser."

def micEnabledMsg : String :=
  "Mic enabled. Click Record and speak your phrase."

def micErrorMsg : String :=
  "Error accessing microphone. Check permissions."

def recordingMsg : String := "Recording your phrase…"

def processingMsg : String := "Processing recording…"

def decodeErrorMsg : String := "Error decoding audio buffer."

/-- Two-digit rendering of `n < 100`, the fractional part of
`toFixed(2)`. -/
def pad2 (n : Nat) : String :=
  if n < 10 then "0" ++ toString n else toString n

/-- `buffer.duration.toFixed(2)` for a duration held in hundredths of a
second. -/
def durFixed2 (b : Phrase) : String :=
  toString (b.durCents / 100) ++ "." ++ pad2 (b.durCents % 100)

/-- The success message of the `onstop` decode handler. -/
def capturedMsg (b : Phrase) : String :=
  "Captured phrase: " ++ durFixed2 b ++ "s. Ready to start phase loop."

def phasePlayingMsg : String :=
  "Phase loop playing. One channel is slightly faster, so they’ll drift over time."

/-- `source.stop()` on the platform: raises when the unit is already
stopped (the benign-stop error condition of §4.5 of the spec). -/
def srcStop (n : SrcNode) : Except String SrcNode :=
  if n.stopped then .error "InvalidStateError" else .ok { n with stopped := true }

/-- `try { source.stop() } catch { /* ignore */ }` of the source. -/
def trySrcStop (n : SrcNode) : SrcNode :=
  match srcStop n with
  | .ok m => m
  | .error _ => n

/-- `stopPhase` (source lines 177–206): for each playback unit, if its ref
is set, stop it swallowing errors, disconnect it and clear the ref; then
disconnect and clear the gain ref; finally set `isPhasePlaying := false`.
Torn-down nodes go to the ghost graveyards. -/
def stopPhase (s : Sys) : Sys :=
  let torn1 := match s.source1 with
    | some n => [{ trySrcStop n with connected := false }]
    | none => []
  let torn2 := match s.source2 with
    | some n => [{ trySrcStop n with connected := false }]
    | none => []
  let tg := match s.gainN with
    | some g => [{ g with toDestination := false }]
    | none => []
  { s with
    source1 := none
    source2 := none
    gainN := none
    torn := s.torn ++ torn1 ++ torn2
    tornGain := s.tornGain ++ tg
    st := { s.st with isPhasePlaying := false } }

/-- `startPhase` (source lines 208–258): no-op unless both the audio
context and the phrase buffer exist; otherwise stop any existing loop,
build two looping buffer sources on the same buffer (unit 1 at the base
rate panned left, unit 2 at the fast rate panned right), one gain node at
the configured gain connected to the destination, read `currentTime` once
and start both units at it, store the three handles and set
`isPhasePlaying := true` with the explanatory status. -/
def startPhase (o : UsePhaseLooperOptions) (s : Sys) : Sys :=
  match s.audioCtx, s.phrase with
  | some ctx, some buf =>
    let s1 := stopPhase s
    let t := (readCurrentTime ctx).1
    let ctx1 := (readCurrentTime ctx).2
    let src1 : SrcNode :=
      { id := s1.srcCount, buffer := buf, loop := true
        playbackRate := o.basePlaybackRate, pan := o.panLeft
        startedAt := t, stopped := false, connected := true }
    let src2 : SrcNode :=
      { id := s1.srcCount + 1, buffer := buf, loop := true
        playbackRate := o.fastPlaybackRate, pan := o.panRight
        startedAt := t, stopped := false, connected := true }
    let gn : GainObj :=
      { id := s1.gainCount, gainValue := o.gain, toDestination := true }
    { s1 with
      audioCtx := some ctx1
      source1 := some src1
      source2 := some src2
      gainN := some gn
      srcCount := s1.srcCount + 2
      gainCount := s1.gainCount + 1
      st := { s1.st with isPhasePlaying := true, status := phasePlayingMsg } }
  | _, _ => s

/-- `startRecording` (source lines 165–169): no-op unless a recorder ref
exists and the platform recorder is idle; otherwise `recorder.start()`,
which synchronously moves the platform state to recording and queues the
`onstart` callback. -/
def startRecording (s : Sys) : Sys :=
  match s.recorder with
  | none => s
  | some _ =>
    if s.recSt = .recording then s
    else { s with recSt := .recording, recQueue := s.recQueue ++ [.onstart] }

/-- `stopRecording` (source lines 171–175): no-op unless a recorder ref
exists and the platform recorder is recording; otherwise
`recorder.stop()`, which synchronously moves the platform state to
inactive and queues the `onstop` callback. -/
def stopRecording (s : Sys) : Sys :=
  match s.recorder with
  | none => s
  | some _ =>
    if s.recSt = .recording then
      { s with recSt := .inactive, recQueue := s.recQueue ++ [.onstop] }
    else s

/-- How a pending `enable` continuation can resolve: full success, or a
rejection at step 2 (`audioCtx.resume()`), step 3 (`getUserMedia`) or
step 4 (`new MediaRecorder(stream)`).  In the step-4 case the stream was
already acquired and assigned to `streamRef` before the throw. -/
inductive EnableOutcome where
  | success
  | failResume
  | failGetUserMedia
  | failRecorderCtor
  deriving DecidableEq

/-- The synchronous prefix of `enable` (source lines 85–103): unsupported
platforms only get a status message; an enabled or enabling controller
returns untouched; otherwise `isEnabling` is set, the shared audio
context is constructed if absent (the environment supplies its clock) and
the continuation is left pending at the first await. -/
def enableStart (clock : Nat → ℚ) (s : Sys) : Sys :=
  if s.st.isSupported = false then
    { s with st := { s.st with status := unsupportedMsg } }
  else if s.st.isEnabled || s.st.isEnabling then s
  else
    let withCtx : Sys :=
      match s.audioCtx with
      | some _ => s
      | none =>
        { s with audioCtx := some { timeSeq := clock, reads := 0 }
                 ctxCount := s.ctxCount + 1 }
    { withCtx with st := { withCtx.st with isEnabling := true }
                   pendingEnable := true }

/-- The continuation of `enable` after its awaits (source lines 105–162).
On success the stream and recorder handles are stored, the three recorder
callbacks are registered, `isEnabled` is set and `isEnabling` cleared.
Any rejection lands in the single catch block: `isEnabling` cleared and
the microphone error status set; if the `MediaRecorder` constructor threw,
`streamRef` had already been assigned the acquired stream. -/
def enableResolve (out : EnableOutcome) (s : Sys) : Sys :=
  if s.pendingEnable = false then s
  else
    match out with
    | .success =>
      { s with
        pendingEnable := false
        stream := some s.streamCount
        streamCount := s.streamCount + 1
        recorder := some s.recCount
        recCount := s.recCount + 1
        recSt := .inactive
        st := { s.st with isEnabled := true, isEnabling := false
                          status := micEnabledMsg } }
    | .failResume =>
      { s with pendingEnable := false
               st := { s.st with isEnabling := false, status := micErrorMsg } }
    | .failGetUserMedia =>
      { s with pendingEnable := false
               st := { s.st with isEnabling := false, status := micErrorMsg } }
    | .failRecorderCtor =>
      { s with
        pendingEnable := false
        stream := some s.streamCount
        streamCount := s.streamCount + 1
        st := { s.st with isEnabling := false, status := micErrorMsg } }

/-- `recorder.ondataavailable` (source lines 111–115): append the chunk
when its size is nonzero. -/
def dataAvailable (size : Nat) (s : Sys) : Sys :=
  match s.recorder with
  | none => s
  | some _ =>
    if 0 < size then { s with chunks := s.chunks ++ [size] } else s

/-- Fire the next queued recorder callback.  `onstart` (lines 117–121)
clears the chunk buffer, sets `isRecording` and the recording status.
`onstop` (lines 123–150) first consumes the ignore-next-stop flag if set;
otherwise it clears `isRecording`, sets the processing status, and — only
when the audio-context ref is non-null — starts the `blob.arrayBuffer()`
await. -/
def recFire (s : Sys) : Sys :=
  match s.recQueue with
  | [] => s
  | ev :: rest =>
    let s0 := { s with recQueue := rest }
    match ev with
    | .onstart =>
      { s0 with chunks := []
                st := { s0.st with isRecording := true, status := recordingMsg } }
    | .onstop =>
      if s0.ignoreNextOnStop then { s0 with ignoreNextOnStop := false }
      else
        let s1 := { s0 with st := { s0.st with isRecording := false
                                               status := processingMsg } }
        match s1.audioCtx with
        | none => s1
        | some _ => { s1 with pendingBlob := true }

/-- Resolution of the `blob.arrayBuffer()` await inside `onstop`.  The
handler then calls `audioCtxRef.current.decodeAudioData`, re-reading the
ref: if it was cleared meanwhile the call throws and the catch sets the
decode error status; otherwise the decode await begins. -/
def blobResolve (s : Sys) : Sys :=
  if s.pendingBlob = false then s
  else
    let s0 := { s with pendingBlob := false }
    match s0.audioCtx with
    | none => { s0 with st := { s0.st with status := decodeErrorMsg } }
    | some _ => { s0 with pendingDecode := true }

/-- Resolution of the `decodeAudioData` await inside `onstop` (source
lines 137–149).  On success the decoded buffer is stored, `hasPhrase` set
and the captured status written — with no re-check of the audio-context
ref.  On rejection the catch sets the decode error status. -/
def decodeResolve (res : Option Phrase) (s : Sys) : Sys :=
  if s.pendingDecode = false then s
  else
    let s0 := { s with pendingDecode := false }
    match res with
    | some b =>
      { s0 with phrase := some b
                st := { s0.st with hasPhrase := true, status := capturedMsg b } }
    | none => { s0 with st := { s0.st with status := decodeErrorMsg } }

/-- `reset` (source lines 285–330): stop the phase graph; if the platform
recorder is recording, raise the ignore-next-stop flag and stop it; stop
the stream tracks and clear the stream ref; close and clear the audio
context; clear every remaining ref; reset the snapshot to
`getInitialState` recomputed on the same platform. -/
def reset (s : Sys) : Sys :=
  let s1 := stopPhase s
  let s2 : Sys :=
    match s1.recorder with
    | some _ =>
      if s1.recSt = .recording then
        { s1 with ignoreNextOnStop := true, recSt := .inactive
                  recQueue := s1.recQueue ++ [.onstop] }
      else s1
    | none => s1
  { s2 with
    stream := none
    audioCtx := none
    recorder := none
    chunks := []
    phrase := none
    source1 := none
    source2 := none
    gainN := none
    st := getInitialState s.plat }

/-- The events the environment can deliver: the six intents plus the
asynchronous completions of the platform. -/
inductive Ev where
  | enableStart (clock : Nat → ℚ)
  | enableResolve (out : EnableOutcome)
  | startRecording
  | stopRecording
  | startPhase
  | stopPhase
  | reset
  | recFire
  | dataAvailable (size : Nat)
  | blobResolve
  | decodeResolve (res : Option Phrase)

/-- One step of the controller. -/
def step (o : UsePhaseLooperOptions) (s : Sys) : Ev → Sys
  | .enableStart clock => enableStart clock s
  | .enableResolve out => enableResolve out s
  | .startRecording => startRecording s
  | .stopRecording => stopRecording s
  | .startPhase => startPhase o s
  | .stopPhase => stopPhase s
  | .reset => reset s
  | .recFire => recFire s
  | .dataAvailable n => dataAvailable n s
  | .blobResolve => blobResolve s
  | .decodeResolve res => decodeResolve res s

/-- Run an event sequence from a state. -/
def run (o : UsePhaseLooperOptions) (s : Sys) (evs : List Ev) : Sys :=
  evs.foldl (step o) s

/-! ### Verification-support definitions -/

/-- A constant context clock for concrete runs. -/
def clock0 : Nat → ℚ := fun _ => 0

/-- A platform with every capability present. -/
def platAll : Platform :=
  { hasWindow := true, hasAudioContext := true, hasNavigator := true
    hasGetUserMedia := true, hasMediaRecorder := true }

/-- A platform with no capability at all. -/
def platNone : Platform :=
  { hasWindow := false, hasAudioContext := false, hasNavigator := false
    hasGetUserMedia := false, hasMediaRecorder := false }

/-- The hook options with all defaults. -/
def opts0 : UsePhaseLooperOptions := {}

/-- A sample decoded phrase of 1.23 seconds. -/
def phrase123 : Phrase := { durCents := 123 }

/-- Everything `startRecording`/`stopRecording` must leave untouched: the
observable snapshot and every stored ref and counter of the hook — all of
`Sys` except the platform recorder state and its callback queue. -/
def intentFrame (s : Sys) :
    PhaseLooperState × Option CtxObj × Option Nat × Option Nat × List Nat
      × Option Phrase × Option SrcNode × Option SrcNode × Option GainObj
      × Bool × Bool × Bool × Bool × List SrcNode × List GainObj
      × Nat × Nat × Nat × Nat × Nat :=
  (s.st, s.audioCtx, s.stream, s.recorder, s.chunks, s.phrase, s.source1,
   s.source2, s.gainN, s.ignoreNextOnStop, s.pendingEnable, s.pendingBlob,
   s.pendingDecode, s.torn, s.tornGain, s.ctxCount, s.streamCount,
   s.recCount, s.srcCount, s.gainCount)

/-- Invariant of an unsupported platform: nothing was ever enabled and no
platform handle was ever constructed. -/
def Unsup (p : Platform) (s : Sys) : Prop :=
  s.plat = p ∧ s.st.isSupported = false ∧ s.st.isEnabled = false
    ∧ s.st.isEnabling = false ∧ s.audioCtx = none ∧ s.stream = none
    ∧ s.recorder = none ∧ s.phrase = none ∧ s.source1 = none
    ∧ s.source2 = none ∧ s.gainN = none ∧ s.pendingEnable = false
    ∧ s.recQueue = [] ∧ s.pendingBlob = false ∧ s.pendingDecode = false
    ∧ s.ctxCount = 0 ∧ s.streamCount = 0 ∧ s.recCount = 0
    ∧ s.srcCount = 0 ∧ s.gainCount = 0

/-- A settled controller from the point of view of `startRecording`: no
recorder callback queued, no phrase stored, no stop/decode stage of a
previous session still in flight, not playing and not recording.  This is
the discipline the presentation layer is meant to follow before starting
a recording. -/
def quiet (s : Sys) : Prop :=
  s.recQueue = [] ∧ s.phrase = none ∧ s.pendingBlob = false
    ∧ s.pendingDecode = false ∧ s.st.isPhasePlaying = false
    ∧ s.st.isRecording = false

/-- States reachable when `startRecording` is only ever issued in a
`quiet` state; every other event is unrestricted. -/
inductive ReachG (o : UsePhaseLooperOptions) (p : Platform) : Sys → Prop where
  | base : ReachG o p (init p)
  | next (s : Sys) (e : Ev) : ReachG o p s → (e = .startRecording → quiet s) →
      ReachG o p (step o s e)

/-- Inductive invariant for the guarded system: while a recording session
is live (recording flag set, platform recorder running, or `onstart` still
queued) there is no phrase, no in-flight stop/decode stage and no phase
playing; the callback queue has one of its four feasible shapes; and a
running platform recorder never coexists with a queued `onstop`. -/
def RecPhaseInv (s : Sys) : Prop :=
  ((s.st.isRecording = true ∨ s.recSt = .recording ∨ .onstart ∈ s.recQueue) →
      s.phrase = none ∧ s.pendingBlob = false ∧ s.pendingDecode = false
        ∧ s.st.isPhasePlaying = false)
    ∧ (s.recQueue = [] ∨ s.recQueue = [.onstart] ∨ s.recQueue = [.onstop]
        ∨ s.recQueue = [.onstart, .onstop])
    ∧ (s.recSt = .recording → .onstop ∉ s.recQueue)

/-- Events of a successful enable. -/
def enabledTrace : List Ev := [.enableStart clock0, .enableResolve .success]

/-- Enable, record a phrase and stop: the decode is in flight afterwards
(`blob.arrayBuffer` resolved, `decodeAudioData` pending), at which point a
`reset` arrives. -/
def staleDecodeTrace : List Ev :=
  [.enableStart clock0, .enableResolve .success, .startRecording, .recFire,
   .dataAvailable 5, .stopRecording, .recFire, .blobResolve, .reset]

/-- Enable, record and decode a phrase, start the phase loop, then start a
second recording while the loop plays. -/
def bothTrueTrace : List Ev :=
  [.enableStart clock0, .enableResolve .success, .startRecording, .recFire,
   .dataAvailable 5, .stopRecording, .recFire, .blobResolve,
   .decodeResolve (some phrase123), .startPhase, .startRecording, .recFire]

/-- An enable whose `MediaRecorder` construction throws after the stream
was acquired. -/
def recorderCtorFailTrace : List Ev :=
  [.enableStart clock0, .enableResolve .failRecorderCtor]

/-- A sample intent barrage against an unsupported platform. -/
def unsupportedTrace : List Ev :=
  [.enableStart clock0, .enableResolve .success, .startRecording,
   .startPhase, .recFire, .stopPhase, .reset]

/-- The controller right after a successful enable. -/
def enabledSys : Sys := run opts0 (init platAll) enabledTrace

/-- The controller right after `enableStart`, with the continuation
pending. -/
def enablingSys : Sys := run opts0 (init platAll) [.enableStart clock0]

/-- A controller holding an audio context and a decoded phrase, ready for
`startPhase`. -/
def readySys : Sys :=
  { init platAll with
    audioCtx := some { timeSeq := clock0, reads := 0 }
    phrase := some phrase123 }

/-! ### Helper lemmas -/

theorem stopPhase_audioCtx (s : Sys) : (stopPhase s).audioCtx = s.audioCtx := rfl

theorem stopPhase_phrase (s : Sys) : (stopPhase s).phrase = s.phrase := rfl

theorem stopPhase_srcCount (s : Sys) : (stopPhase s).srcCount = s.srcCount := rfl

theorem stopPhase_gainCount (s : Sys) : (stopPhase s).gainCount = s.gainCount := rfl

theorem stopPhase_source1 (s : Sys) : (stopPhase s).source1 = none := rfl

theorem stopPhase_source2 (s : Sys) : (stopPhase s).source2 = none := rfl

theorem stopPhase_gainN (s : Sys) : (stopPhase s).gainN = none := rfl

theorem stopPhase_isPhasePlaying (s : Sys) :
    (stopPhase s).st.isPhasePlaying = false := rfl

theorem stopPhase_idem (s : Sys) : stopPhase (stopPhase s) = stopPhase s := by
  simp [stopPhase]

theorem step_plat (o : UsePhaseLooperOptions) (s : Sys) (e : Ev) :
    (step o s e).plat = s.plat := by
  cases e <;>
    simp only [step, enableStart, enableResolve, startRecording, stopRecording,
      startPhase, stopPhase, reset, recFire, dataAvailable, blobResolve,
      decodeResolve] <;>
    repeat' first | rfl | split

theorem run_plat (o : UsePhaseLooperOptions) (s : Sys) (evs : List Ev) :
    (run o s evs).plat = s.plat := by
  induction evs generalizing s with
  | nil => rfl
  | cons e t ih => rw [run, List.foldl_cons, ← run, ih, step_plat]

theorem startPhase_noop_of_ctx_none {o : UsePhaseLooperOptions} {s : Sys}
    (h : s.audioCtx = none) : startPhase o s = s := by
  unfold startPhase
  split
  all_goals first | rfl | (exfalso; simp_all)

theorem startPhase_noop_of_phrase_none {o : UsePhaseLooperOptions} {s : Sys}
    (h : s.phrase = none) : startPhase o s = s := by
  unfold startPhase
  split
  all_goals first | rfl | (exfalso; simp_all)

theorem decodeResolve_none_phrase (s : Sys) :
    (decodeResolve none s).phrase = s.phrase := by
  unfold decodeResolve
  split <;> rfl

theorem decodeResolve_none_hasPhrase (s : Sys) :
    (decodeResolve none s).st.hasPhrase = s.st.hasPhrase := by
  unfold decodeResolve
  split <;> rfl

theorem stopPhase_recorder (s : Sys) : (stopPhase s).recorder = s.recorder := rfl

theorem stopPhase_recSt (s : Sys) : (stopPhase s).recSt = s.recSt := rfl

theorem enableStart_unsupported {c : Nat → ℚ} {s : Sys}
    (h : s.st.isSupported = false) :
    enableStart c s = { s with st := { s.st with status := unsupportedMsg } } := by
  unfold enableStart
  rw [h]
  rfl

theorem enableResolve_not_pending {out : EnableOutcome} {s : Sys}
    (h : s.pendingEnable = false) : enableResolve out s = s := by
  unfold enableResolve
  rw [h]
  rfl

theorem startRecording_no_recorder {s : Sys} (h : s.recorder = none) :
    startRecording s = s := by
  unfold startRecording
  rw [h]

theorem stopRecording_no_recorder {s : Sys} (h : s.recorder = none) :
    stopRecording s = s := by
  unfold stopRecording
  rw [h]

theorem recFire_empty {s : Sys} (h : s.recQueue = []) : recFire s = s := by
  unfold recFire
  rw [h]

theorem dataAvailable_no_recorder {n : Nat} {s : Sys} (h : s.recorder = none) :
    dataAvailable n s = s := by
  unfold dataAvailable
  rw [h]

theorem blobResolve_not_pending {s : Sys} (h : s.pendingBlob = false) :
    blobResolve s = s := by
  unfold blobResolve
  rw [h]
  rfl

theorem decodeResolve_not_pending {r : Option Phrase} {s : Sys}
    (h : s.pendingDecode = false) : decodeResolve r s = s := by
  unfold decodeResolve
  rw [h]
  rfl

theorem reset_no_recorder {s : Sys} (h : s.recorder = none) :
    reset s =
      { stopPhase s with
        stream := none, audioCtx := none, recorder := none, chunks := []
        phrase := none, source1 := none, source2 := none, gainN := none
        st := getInitialState s.plat } := by
  unfold reset
  dsimp only
  rw [stopPhase_recorder, h]

theorem enableResolve_failResume {s : Sys} (hp : s.pendingEnable = true) :
    enableResolve .failResume s =
      { s with pendingEnable := false
               st := { s.st with isEnabling := false, status := micErrorMsg } } := by
  unfold enableResolve
  rw [hp]
  rfl

theorem enableResolve_failGetUserMedia {s : Sys} (hp : s.pendingEnable = true) :
    enableResolve .failGetUserMedia s =
      { s with pendingEnable := false
               st := { s.st with isEnabling := false, status := micErrorMsg } } := by
  unfold enableResolve
  rw [hp]
  rfl

theorem enableResolve_failRecorderCtor {s : Sys} (hp : s.pendingEnable = true) :
    enableResolve .failRecorderCtor s =
      { s with pendingEnable := false
               stream := some s.streamCount
               streamCount := s.streamCount + 1
               st := { s.st with isEnabling := false, status := micErrorMsg } } := by
  unfold enableResolve
  rw [hp]
  rfl

theorem enableStart_pending (c : Nat → ℚ) (s : Sys)
    (hsup : s.st.isSupported = true) (he : s.st.isEnabled = false)
    (hing : s.st.isEnabling = false) :
    (enableStart c s).pendingEnable = true := by
  simp [enableStart, hsup, he, hing]

/-- The successful-precondition unfolding of `startPhase`. -/
theorem startPhase_some (o : UsePhaseLooperOptions) (s : Sys) (ctx : CtxObj)
    (b : Phrase) (hc : s.audioCtx = some ctx) (hb : s.phrase = some b) :
    startPhase o s =
      { stopPhase s with
        audioCtx := some { ctx with reads := ctx.reads + 1 }
        source1 := some { id := (stopPhase s).srcCount, buffer := b, loop := true
                          playbackRate := o.basePlaybackRate, pan := o.panLeft
                          startedAt := ctx.timeSeq ctx.reads, stopped := false
                          connected := true }
        source2 := some { id := (stopPhase s).srcCount + 1, buffer := b, loop := true
                          playbackRate := o.fastPlaybackRate, pan := o.panRight
                          startedAt := ctx.timeSeq ctx.reads, stopped := false
                          connected := true }
        gainN := some { id := (stopPhase s).gainCount, gainValue := o.gain
                        toDestination := true }
        srcCount := (stopPhase s).srcCount + 2
        gainCount := (stopPhase s).gainCount + 1
        st := { (stopPhase s).st with isPhasePlaying := true
                                      status := phasePlayingMsg } } := by
  unfold startPhase
  rw [hc, hb]
  rfl

theorem recFire_onstart {s : Sys} {rest : List RecEv}
    (heq : s.recQueue = RecEv.onstart :: rest) :
    recFire s =
      { s with recQueue := rest, chunks := []
               st := { s.st with isRecording := true, status := recordingMsg } } := by
  unfold recFire
  rw [heq]

theorem recFire_onstop_ignored {s : Sys} {rest : List RecEv}
    (heq : s.recQueue = RecEv.onstop :: rest)
    (hig : s.ignoreNextOnStop = true) :
    recFire s = { s with recQueue := rest, ignoreNextOnStop := false } := by
  unfold recFire
  rw [heq]
  dsimp only
  rw [hig]
  rfl

theorem recFire_onstop_ctxNone {s : Sys} {rest : List RecEv}
    (heq : s.recQueue = RecEv.onstop :: rest)
    (hig : s.ignoreNextOnStop = false) (hctx : s.audioCtx = none) :
    recFire s =
      { s with recQueue := rest
               st := { s.st with isRecording := false, status := processingMsg } } := by
  unfold recFire
  rw [heq]
  dsimp only
  rw [hig, hctx]
  rfl

theorem recFire_onstop_ctxSome {s : Sys} {rest : List RecEv} {c : CtxObj}
    (heq : s.recQueue = RecEv.onstop :: rest)
    (hig : s.ignoreNextOnStop = false) (hctx : s.audioCtx = some c) :
    recFire s =
      { s with recQueue := rest, pendingBlob := true
               st := { s.st with isRecording := false, status := processingMsg } } := by
  unfold recFire
  rw [heq]
  dsimp only
  rw [hig, hctx]
  rfl

theorem recPhaseInv_enableStart (c : Nat → ℚ) (s : Sys) (h : RecPhaseInv s) :
    RecPhaseInv (enableStart c s) := by
  obtain ⟨hB, hC, hD⟩ := h
  unfold enableStart
  split
  · exact ⟨hB, hC, hD⟩
  · split
    · exact ⟨hB, hC, hD⟩
    · cases hctx : s.audioCtx <;> simp only [hctx] <;> exact ⟨hB, hC, hD⟩

theorem recPhaseInv_enableResolve (out : EnableOutcome) (s : Sys)
    (h : RecPhaseInv s) : RecPhaseInv (enableResolve out s) := by
  obtain ⟨hB, hC, hD⟩ := h
  unfold enableResolve
  split
  · exact ⟨hB, hC, hD⟩
  · cases out with
    | success =>
      refine ⟨?_, hC, ?_⟩
      · intro ha
        refine hB ?_
        rcases ha with ha | ha | ha
        · exact Or.inl ha
        · exact nomatch ha
        · exact Or.inr (Or.inr ha)
      · intro ha
        exact nomatch ha
    | failResume => exact ⟨hB, hC, hD⟩
    | failGetUserMedia => exact ⟨hB, hC, hD⟩
    | failRecorderCtor => exact ⟨hB, hC, hD⟩

theorem recPhaseInv_dataAvailable (n : Nat) (s : Sys) (h : RecPhaseInv s) :
    RecPhaseInv (dataAvailable n s) := by
  obtain ⟨hB, hC, hD⟩ := h
  unfold dataAvailable
  split
  · exact ⟨hB, hC, hD⟩
  · split
    · exact ⟨hB, hC, hD⟩
    · exact ⟨hB, hC, hD⟩

theorem recPhaseInv_stopPhase (s : Sys) (h : RecPhaseInv s) :
    RecPhaseInv (stopPhase s) := by
  obtain ⟨hB, hC, hD⟩ := h
  exact ⟨fun ha => ⟨(hB ha).1, (hB ha).2.1, (hB ha).2.2.1, rfl⟩, hC, hD⟩

theorem recPhaseInv_startPhase (o : UsePhaseLooperOptions) (s : Sys)
    (h : RecPhaseInv s) : RecPhaseInv (startPhase o s) := by
  obtain ⟨hB, hC, hD⟩ := h
  unfold startPhase
  split
  · next ctx buf hc hb =>
    refine ⟨?_, hC, hD⟩
    intro ha
    have := (hB ha).1
    rw [hb] at this
    exact nomatch this
  · exact ⟨hB, hC, hD⟩

theorem recPhaseInv_blobResolve (s : Sys) (h : RecPhaseInv s) :
    RecPhaseInv (blobResolve s) := by
  obtain ⟨hB, hC, hD⟩ := h
  unfold blobResolve
  split
  · exact ⟨hB, hC, hD⟩
  · next hnp =>
    have hpb : s.pendingBlob = true := by
      cases hx : s.pendingBlob
      · exact absurd hx hnp
      · rfl
    have hnoA : ¬(s.st.isRecording = true ∨ s.recSt = .recording
        ∨ .onstart ∈ s.recQueue) := by
      intro ha
      have := (hB ha).2.1
      rw [hpb] at this
      exact nomatch this
    cases hctx : s.audioCtx <;> simp only [hctx] <;>
      exact ⟨fun ha => absurd ha hnoA, hC, hD⟩

theorem recPhaseInv_decodeResolve (r : Option Phrase) (s : Sys)
    (h : RecPhaseInv s) : RecPhaseInv (decodeResolve r s) := by
  obtain ⟨hB, hC, hD⟩ := h
  unfold decodeResolve
  split
  · exact ⟨hB, hC, hD⟩
  · next hnp =>
    have hpd : s.pendingDecode = true := by
      cases hx : s.pendingDecode
      · exact absurd hx hnp
      · rfl
    have hnoA : ¬(s.st.isRecording = true ∨ s.recSt = .recording
        ∨ .onstart ∈ s.recQueue) := by
      intro ha
      have := (hB ha).2.2.1
      rw [hpd] at this
      exact nomatch this
    cases r <;> exact ⟨fun ha => absurd ha hnoA, hC, hD⟩

theorem queueShape_append_onstop {q : List RecEv}
    (h : q = [] ∨ q = [.onstart]) :
    q ++ [RecEv.onstop] = [] ∨ q ++ [RecEv.onstop] = [.onstart]
      ∨ q ++ [RecEv.onstop] = [.onstop]
      ∨ q ++ [RecEv.onstop] = [.onstart, .onstop] := by
  rcases h with h | h <;> rw [h] <;> simp

theorem recPhaseInv_startRecording (s : Sys) (hq : quiet s)
    (h : RecPhaseInv s) : RecPhaseInv (startRecording s) := by
  obtain ⟨hB, hC, hD⟩ := h
  obtain ⟨q1, q2, q3, q4, q5, _⟩ := hq
  unfold startRecording
  split
  · exact ⟨hB, hC, hD⟩
  · split
    · exact ⟨hB, hC, hD⟩
    · refine ⟨fun _ => ⟨q2, q3, q4, q5⟩, ?_, ?_⟩
      · have : s.recQueue ++ [RecEv.onstart] = [RecEv.onstart] := by
          rw [q1]
          rfl
        exact Or.inr (Or.inl this)
      · intro _
        have hgoal : RecEv.onstop ∉ s.recQueue ++ [RecEv.onstart] := by
          rw [q1]
          simp
        exact hgoal

theorem recPhaseInv_stopRecording (s : Sys) (h : RecPhaseInv s) :
    RecPhaseInv (stopRecording s) := by
  obtain ⟨hB, hC, hD⟩ := h
  unfold stopRecording
  split
  · exact ⟨hB, hC, hD⟩
  · split
    · next hr =>
      have hno : RecEv.onstop ∉ s.recQueue := hD hr
      have hsh : s.recQueue = [] ∨ s.recQueue = [.onstart] := by
        rcases hC with h | h | h | h
        · exact Or.inl h
        · exact Or.inr h
        · rw [h] at hno
          simp at hno
        · rw [h] at hno
          simp at hno
      refine ⟨fun _ => hB (Or.inr (Or.inl hr)), ?_, ?_⟩
      · exact queueShape_append_onstop hsh
      · intro hr2
        exact nomatch hr2
    · exact ⟨hB, hC, hD⟩

theorem recPhaseInv_reset (s : Sys) (h : RecPhaseInv s) :
    RecPhaseInv (reset s) := by
  obtain ⟨hB, hC, hD⟩ := h
  unfold reset
  dsimp only
  split
  · split
    · next hr =>
      have hr' : s.recSt = .recording := hr
      have hno : RecEv.onstop ∉ s.recQueue := hD hr'
      have hsh : s.recQueue = [] ∨ s.recQueue = [.onstart] := by
        rcases hC with h | h | h | h
        · exact Or.inl h
        · exact Or.inr h
        · rw [h] at hno
          simp at hno
        · rw [h] at hno
          simp at hno
      have hpre := hB (Or.inr (Or.inl hr'))
      refine ⟨fun _ => ⟨rfl, hpre.2.1, hpre.2.2.1, rfl⟩, ?_, ?_⟩
      · exact queueShape_append_onstop hsh
      · intro hr2
        exact nomatch hr2
    · refine ⟨?_, hC, hD⟩
      intro ha
      have hpb : s.pendingBlob = false ∧ s.pendingDecode = false := by
        rcases ha with ha | ha | ha
        · exact nomatch ha
        · have := hB (Or.inr (Or.inl ha))
          exact ⟨this.2.1, this.2.2.1⟩
        · have := hB (Or.inr (Or.inr ha))
          exact ⟨this.2.1, this.2.2.1⟩
      exact ⟨rfl, hpb.1, hpb.2, rfl⟩
  · refine ⟨?_, hC, hD⟩
    intro ha
    have hpb : s.pendingBlob = false ∧ s.pendingDecode = false := by
      rcases ha with ha | ha | ha
      · exact nomatch ha
      · have := hB (Or.inr (Or.inl ha))
        exact ⟨this.2.1, this.2.2.1⟩
      · have := hB (Or.inr (Or.inr ha))
        exact ⟨this.2.1, this.2.2.1⟩
    exact ⟨rfl, hpb.1, hpb.2, rfl⟩

theorem recPhaseInv_recFire (s : Sys) (h : RecPhaseInv s) :
    RecPhaseInv (recFire s) := by
  obtain ⟨hB, hC, hD⟩ := h
  cases heq : s.recQueue with
  | nil =>
    rw [recFire_empty heq]
    exact ⟨hB, hC, hD⟩
  | cons ev rest =>
    cases ev with
    | onstart =>
      rw [recFire_onstart heq]
      have hstart : RecEv.onstart ∈ s.recQueue := by
        rw [heq]
        exact List.mem_cons_self _ _
      have hpre := hB (Or.inr (Or.inr hstart))
      have hrest : rest = [] ∨ rest = [.onstop] := by
        rcases hC with h | h | h | h <;> rw [h] at heq
        · exact nomatch heq
        · injection heq with h1 h2
          exact Or.inl h2.symm
        · injection heq with h1 h2
          exact nomatch h1
        · injection heq with h1 h2
          exact Or.inr h2.symm
      refine ⟨fun _ => ⟨hpre.1, hpre.2.1, hpre.2.2.1, hpre.2.2.2⟩, ?_, ?_⟩
      · rcases hrest with h | h
        · exact Or.inl h
        · exact Or.inr (Or.inr (Or.inl h))
      · intro hr
        have hno := hD hr
        rw [heq] at hno
        intro hm
        exact hno (List.mem_cons_of_mem _ hm)
    | onstop =>
      have hrest : rest = [] := by
        rcases hC with h | h | h | h <;> rw [h] at heq
        · exact nomatch heq
        · injection heq with h1 h2
          exact nomatch h1
        · injection heq with h1 h2
          exact h2.symm
        · injection heq with h1 h2
          exact nomatch h1
      have hnr : ¬(s.recSt = .recording) := by
        intro hr
        exact (hD hr) (by rw [heq]; exact List.mem_cons_self _ _)
      cases hig : s.ignoreNextOnStop with
      | true =>
        rw [recFire_onstop_ignored heq hig]
        refine ⟨?_, Or.inl hrest, fun hr => absurd hr hnr⟩
        intro ha
        refine hB ?_
        rcases ha with ha | ha | ha
        · exact Or.inl ha
        · exact Or.inr (Or.inl ha)
        · rw [hrest] at ha
          exact absurd ha (List.not_mem_nil _)
      | false =>
        cases hctx : s.audioCtx with
        | none =>
          rw [recFire_onstop_ctxNone heq hig hctx]
          refine ⟨?_, Or.inl hrest, fun hr => absurd hr hnr⟩
          intro ha
          rcases ha with ha | ha | ha
          · exact nomatch ha
          · exact absurd ha hnr
          · rw [hrest] at ha
            exact absurd ha (List.not_mem_nil _)
        | some c =>
          rw [recFire_onstop_ctxSome heq hig hctx]
          refine ⟨?_, Or.inl hrest, fun hr => absurd hr hnr⟩
          intro ha
          rcases ha with ha | ha | ha
          · exact nomatch ha
          · exact absurd ha hnr
          · rw [hrest] at ha
            exact absurd ha (List.not_mem_nil _)

/-- Any step whose `startRecording` events are issued only in `quiet`
states preserves `RecPhaseInv`. -/
theorem recPhaseInv_step (o : UsePhaseLooperOptions) (s : Sys) (e : Ev)
    (hg : e = .startRecording → quiet s) (h : RecPhaseInv s) :
    RecPhaseInv (step o s e) := by
  cases e with
  | enableStart c => exact recPhaseInv_enableStart c s h
  | enableResolve out => exact recPhaseInv_enableResolve out s h
  | startRecording => exact recPhaseInv_startRecording s (hg rfl) h
  | stopRecording => exact recPhaseInv_stopRecording s h
  | startPhase => exact recPhaseInv_startPhase o s h
  | stopPhase => exact recPhaseInv_stopPhase s h
  | reset => exact recPhaseInv_reset s h
  | recFire => exact recPhaseInv_recFire s h
  | dataAvailable n => exact recPhaseInv_dataAvailable n s h
  | blobResolve => exact recPhaseInv_blobResolve s h
  | decodeResolve r => exact recPhaseInv_decodeResolve r s h

/-- Every state of the guarded system satisfies the invariant. -/
theorem reachG_recPhaseInv (o : UsePhaseLooperOptions) (p : Platform)
    (s : Sys) (h : ReachG o p s) : RecPhaseInv s := by
  induction h with
  | base =>
    exact ⟨fun _ => ⟨rfl, rfl, rfl, rfl⟩, Or.inl rfl,
      fun _ => List.not_mem_nil _⟩
  | next s e _ hg ih => exact recPhaseInv_step o s e hg ih

/-- Every single step preserves the unsupported-platform invariant. -/
theorem unsup_step (p : Platform) (o : UsePhaseLooperOptions) (s : Sys) (e : Ev)
    (hp : (getInitialState p).isSupported = false) (h : Unsup p s) :
    Unsup p (step o s e) := by
  obtain ⟨h1, h2, h3, h4, h5, h6, h7, h8, h9, h10, h11, h12, h13, h14, h15,
    h16, h17, h18, h19, h20⟩ := h
  cases e with
  | enableStart c =>
    show Unsup p (enableStart c s)
    rw [enableStart_unsupported h2]
    exact ⟨h1, h2, h3, h4, h5, h6, h7, h8, h9, h10, h11, h12, h13, h14, h15,
      h16, h17, h18, h19, h20⟩
  | enableResolve out =>
    show Unsup p (enableResolve out s)
    rw [enableResolve_not_pending h12]
    exact ⟨h1, h2, h3, h4, h5, h6, h7, h8, h9, h10, h11, h12, h13, h14, h15,
      h16, h17, h18, h19, h20⟩
  | startRecording =>
    show Unsup p (startRecording s)
    rw [startRecording_no_recorder h7]
    exact ⟨h1, h2, h3, h4, h5, h6, h7, h8, h9, h10, h11, h12, h13, h14, h15,
      h16, h17, h18, h19, h20⟩
  | stopRecording =>
    show Unsup p (stopRecording s)
    rw [stopRecording_no_recorder h7]
    exact ⟨h1, h2, h3, h4, h5, h6, h7, h8, h9, h10, h11, h12, h13, h14, h15,
      h16, h17, h18, h19, h20⟩
  | startPhase =>
    show Unsup p (startPhase o s)
    rw [startPhase_noop_of_ctx_none h5]
    exact ⟨h1, h2, h3, h4, h5, h6, h7, h8, h9, h10, h11, h12, h13, h14, h15,
      h16, h17, h18, h19, h20⟩
  | stopPhase =>
    exact ⟨h1, h2, h3, h4, h5, h6, h7, h8, rfl, rfl, rfl, h12, h13, h14, h15,
      h16, h17, h18, h19, h20⟩
  | reset =>
    show Unsup p (reset s)
    rw [reset_no_recorder h7]
    exact ⟨h1, by rw [show s.plat = p from h1]; exact hp, rfl, rfl, rfl, rfl,
      rfl, rfl, rfl, rfl, rfl, h12, h13, h14, h15, h16, h17, h18, h19, h20⟩
  | recFire =>
    show Unsup p (recFire s)
    rw [recFire_empty h13]
    exact ⟨h1, h2, h3, h4, h5, h6, h7, h8, h9, h10, h11, h12, h13, h14, h15,
      h16, h17, h18, h19, h20⟩
  | dataAvailable n =>
    show Unsup p (dataAvailable n s)
    rw [dataAvailable_no_recorder h7]
    exact ⟨h1, h2, h3, h4, h5, h6, h7, h8, h9, h10, h11, h12, h13, h14, h15,
      h16, h17, h18, h19, h20⟩
  | blobResolve =>
    show Unsup p (blobResolve s)
    rw [blobResolve_not_pending h14]
    exact ⟨h1, h2, h3, h4, h5, h6, h7, h8, h9, h10, h11, h12, h13, h14, h15,
      h16, h17, h18, h19, h20⟩
  | decodeResolve r =>
    show Unsup p (decodeResolve r s)
    rw [decodeResolve_not_pending h15]
    exact ⟨h1, h2, h3, h4, h5, h6, h7, h8, h9, h10, h11, h12, h13, h14, h15,
      h16, h17, h18, h19, h20⟩

theorem unsup_run (p : Platform) (o : UsePhaseLooperOptions)
    (hp : (getInitialState p).isSupported = false) (s : Sys) (h : Unsup p s)
    (evs : List Ev) : Unsup p (run o s evs) := by
  induction evs generalizing s with
  | nil => exact h
  | cons e t ih =>
    rw [run, List.foldl_cons, ← run]
    exact ih _ (unsup_step p o s e hp h)

/-! ### Claim theorems -/

/-- C1: for every reachable controller state, `reset` yields an observable
snapshot equal to the construction-time snapshot: `isSupported` recomputed
by the same pure capability check on the unchanged platform, and every
other flag false with an empty status — exactly `getInitialState`, which
is also the snapshot the controller is constructed with. -/
theorem reset_yields_initial_snapshot (o : UsePhaseLooperOptions)
    (p : Platform) (evs : List Ev) :
    (reset (run o (init p) evs)).st = getInitialState p
      ∧ (init p).st = getInitialState p := by
  constructor
  · show getInitialState (run o (init p) evs).plat = getInitialState p
    rw [run_plat]
    rfl
  · rfl

/-- C2: on a platform failing the capability check, every sequence of
intents and platform callbacks leaves `isEnabled` false and constructs no
resource handle at all: the construction counters for audio contexts,
streams, recorders, playback units and gain nodes all stay zero and every
handle ref stays empty. -/
theorem unsupported_no_resources (p : Platform)
    (hp : (getInitialState p).isSupported = false)
    (o : UsePhaseLooperOptions) (evs : List Ev) :
    (run o (init p) evs).st.isEnabled = false
      ∧ (run o (init p) evs).ctxCount = 0
      ∧ (run o (init p) evs).streamCount = 0
      ∧ (run o (init p) evs).recCount = 0
      ∧ (run o (init p) evs).srcCount = 0
      ∧ (run o (init p) evs).gainCount = 0
      ∧ (run o (init p) evs).audioCtx = none
      ∧ (run o (init p) evs).stream = none
      ∧ (run o (init p) evs).recorder = none
      ∧ (run o (init p) evs).source1 = none
      ∧ (run o (init p) evs).source2 = none
      ∧ (run o (init p) evs).gainN = none := by
  have h0 : Unsup p (init p) :=
    ⟨rfl, hp, rfl, rfl, rfl, rfl, rfl, rfl, rfl, rfl, rfl, rfl, rfl, rfl, rfl,
     rfl, rfl, rfl, rfl, rfl⟩
  obtain ⟨_, _, h3, _, h5, h6, h7, _, h9, h10, h11, _, _, _, _, h16, h17, h18,
    h19, h20⟩ := unsup_run p o hp (init p) h0 evs
  exact ⟨h3, h16, h17, h18, h19, h20, h5, h6, h7, h9, h10, h11⟩

/-- Witness for C2 on a fully unsupported platform under a sample intent
barrage. -/
theorem unsupported_no_resources_witness :
    (run opts0 (init platNone) unsupportedTrace).st.isEnabled = false
      ∧ (run opts0 (init platNone) unsupportedTrace).ctxCount = 0
      ∧ (run opts0 (init platNone) unsupportedTrace).streamCount = 0 := by
  have h := unsupported_no_resources platNone rfl opts0 unsupportedTrace
  exact ⟨h.1, h.2.1, h.2.2.1⟩

/-- C3: `stopPhase` is a total function (it never faults: the platform
stop errors are swallowed by `trySrcStop`), it is idempotent, and in every
state — fresh controllers included — it leaves `isPhasePlaying` false with
both playback-unit refs and the gain ref cleared. -/
theorem stopPhase_idempotent_total (s : Sys) (p : Platform) :
    stopPhase (stopPhase s) = stopPhase s
      ∧ (stopPhase s).st.isPhasePlaying = false
      ∧ (stopPhase s).source1 = none
      ∧ (stopPhase s).source2 = none
      ∧ (stopPhase s).gainN = none
      ∧ (stopPhase (init p)).st.isPhasePlaying = false := by
  exact ⟨stopPhase_idem s, rfl, rfl, rfl, rfl, rfl⟩

/-- C10: `startRecording` and `stopRecording` never synchronously change
the observable snapshot or any stored ref or counter (the whole
`intentFrame`); they at most flip the platform recorder state and append a
start/stop callback to the recorder queue, deferring every flag and
status change to those asynchronous handlers. -/
theorem recording_intents_frame (s : Sys) :
    intentFrame (startRecording s) = intentFrame s
      ∧ intentFrame (stopRecording s) = intentFrame s
      ∧ (∃ q, (startRecording s).recQueue = s.recQueue ++ q)
      ∧ (∃ q, (stopRecording s).recQueue = s.recQueue ++ q) := by
  refine ⟨?_, ?_, ?_, ?_⟩
  · unfold startRecording
    repeat' first | rfl | split
  · unfold stopRecording
    repeat' first | rfl | split
  · unfold startRecording
    rcases s.recorder with _ | r
    · exact ⟨[], by simp⟩
    · by_cases h : s.recSt = .recording
      · simp only [h, if_pos rfl]
        exact ⟨[], by simp⟩
      · simp only [if_neg h]
        exact ⟨[.onstart], rfl⟩
  · unfold stopRecording
    rcases s.recorder with _ | r
    · exact ⟨[], by simp⟩
    · by_cases h : s.recSt = .recording
      · simp only [h, if_pos rfl]
        exact ⟨[.onstop], rfl⟩
      · simp only [if_neg h]
        exact ⟨[], by simp⟩

/-- C4: whenever the audio context and a stored phrase both exist,
`startPhase` tears down any existing graph first (it acts exactly as it
would on the torn-down state), then stores two freshly constructed looping
playback units on the same phrase buffer — unit 1 at the base rate routed
through a pan stage at `panLeft`, unit 2 at the fast rate routed through a
pan stage at `panRight` — and one shared gain stage at the configured gain
connected to the destination, starts both units at one reference time
obtained by a single read of the context clock, and sets
`isPhasePlaying`. -/
theorem startPhase_builds_graph (o : UsePhaseLooperOptions) (s : Sys)
    (ctx : CtxObj) (b : Phrase)
    (hc : s.audioCtx = some ctx) (hb : s.phrase = some b) :
    (startPhase o s).source1 =
        some { id := s.srcCount, buffer := b, loop := true
               playbackRate := o.basePlaybackRate, pan := o.panLeft
               startedAt := ctx.timeSeq ctx.reads, stopped := false
               connected := true }
      ∧ (startPhase o s).source2 =
          some { id := s.srcCount + 1, buffer := b, loop := true
                 playbackRate := o.fastPlaybackRate, pan := o.panRight
                 startedAt := ctx.timeSeq ctx.reads, stopped := false
                 connected := true }
      ∧ (startPhase o s).gainN =
          some { id := s.gainCount, gainValue := o.gain, toDestination := true }
      ∧ (startPhase o s).audioCtx = some { ctx with reads := ctx.reads + 1 }
      ∧ (startPhase o s).st.isPhasePlaying = true
      ∧ startPhase o s = startPhase o (stopPhase s) := by
  have e1 := startPhase_some o s ctx b hc hb
  have e2 := startPhase_some o (stopPhase s) ctx b
    (by rw [stopPhase_audioCtx, hc]) (by rw [stopPhase_phrase, hb])
  rw [stopPhase_idem] at e2
  refine ⟨?_, ?_, ?_, ?_, ?_, ?_⟩
  · rw [e1]; rfl
  · rw [e1]; rfl
  · rw [e1]; rfl
  · rw [e1]
  · rw [e1]
  · rw [e1, e2]

/-- Witness for C4 at a concrete ready controller. -/
theorem startPhase_builds_graph_witness :
    (startPhase opts0 readySys).st.isPhasePlaying = true
      ∧ (startPhase opts0 readySys).source1 =
          some { id := 0, buffer := phrase123, loop := true
                 playbackRate := 1, pan := -0.8, startedAt := clock0 0
                 stopped := false, connected := true }
      ∧ startPhase opts0 readySys = startPhase opts0 (stopPhase readySys) := by
  have h := startPhase_builds_graph opts0 readySys
    { timeSeq := clock0, reads := 0 } phrase123 rfl rfl
  exact ⟨h.2.2.2.2.1, h.1, h.2.2.2.2.2⟩

/-- C5: `startPhase` is a no-op — the whole controller state, status and
every handle unchanged — unless both an audio context and a stored phrase
exist; and a decode failure leaves the phrase storage and the `hasPhrase`
flag untouched, so after a failed decode with no phrase stored every
subsequent `startPhase` is still a no-op. -/
theorem startPhase_noop_without_ctx_or_phrase (o : UsePhaseLooperOptions)
    (s : Sys) :
    ((s.audioCtx = none ∨ s.phrase = none) → startPhase o s = s)
      ∧ (s.phrase = none →
          (decodeResolve none s).phrase = none
            ∧ (decodeResolve none s).st.hasPhrase = s.st.hasPhrase
            ∧ startPhase o (decodeResolve none s) = decodeResolve none s) := by
  constructor
  · intro h
    rcases h with h | h
    · exact startPhase_noop_of_ctx_none h
    · exact startPhase_noop_of_phrase_none h
  · intro h
    refine ⟨?_, decodeResolve_none_hasPhrase s, ?_⟩
    · rw [decodeResolve_none_phrase, h]
    · exact startPhase_noop_of_phrase_none (by rw [decodeResolve_none_phrase, h])

/-- Witness for C5 on a fresh controller (no context, no phrase, decode
failure arriving). -/
theorem startPhase_noop_witness :
    startPhase opts0 (init platAll) = init platAll
      ∧ (decodeResolve none (init platAll)).phrase = none := by
  have h := startPhase_noop_without_ctx_or_phrase opts0 (init platAll)
  exact ⟨h.1 (Or.inl rfl), (h.2 rfl).1⟩

/-- C6: on a supported platform, calling `enable` while `isEnabled` or
`isEnabling` is already true — in particular a second `enable` issued
before the first has resolved — returns immediately with the controller
completely unchanged, so no second stream or recorder is ever
constructed. -/
theorem enable_noop_when_enabled_or_enabling (c : Nat → ℚ) (s : Sys)
    (hsup : s.st.isSupported = true)
    (h : s.st.isEnabled = true ∨ s.st.isEnabling = true) :
    enableStart c s = s := by
  unfold enableStart
  rcases h with h | h <;> simp [hsup, h]

/-- C7 counterexample: when `enable` fails at step 4 (the `MediaRecorder`
constructor throws), `isEnabling` is cleared, `isEnabled` stays false and
the error status is set — but the stream acquired at step 3 had already
been assigned to `streamRef` and is never cleared by the catch block, so
an acquired stream does remain reachable, contradicting the claim that no
partially-constructed capture session survives a step 2–4 failure. -/
theorem enable_recorder_ctor_failure_keeps_stream :
    (run opts0 (init platAll) recorderCtorFailTrace).st.isEnabling = false
      ∧ (run opts0 (init platAll) recorderCtorFailTrace).st.isEnabled = false
      ∧ (run opts0 (init platAll) recorderCtorFailTrace).st.status = micErrorMsg
      ∧ (run opts0 (init platAll) recorderCtorFailTrace).stream = some 0 := by
  exact ⟨rfl, rfl, rfl, rfl⟩

/-- C8: after `stopRecording` and then `reset` (arriving once the
`onstop` handler has already called `decodeAudioData`, i.e. with the
decode still pending), the reset state is clean — `hasPhrase` false,
phrase storage empty, context cleared — yet the eventual decode completion
still stores the phrase and sets `hasPhrase := true`: the handler checks
the context ref only before the decode awaits, never after, so the stale
write the claim (and the spec) rule out does occur. -/
theorem stale_decode_after_reset_sets_hasPhrase :
    (run opts0 (init platAll) staleDecodeTrace).st.hasPhrase = false
      ∧ (run opts0 (init platAll) staleDecodeTrace).phrase = none
      ∧ (run opts0 (init platAll) staleDecodeTrace).audioCtx = none
      ∧ (run opts0 (init platAll) staleDecodeTrace).pendingDecode = true
      ∧ (decodeResolve (some phrase123)
          (run opts0 (init platAll) staleDecodeTrace)).st.hasPhrase = true
      ∧ (decodeResolve (some phrase123)
          (run opts0 (init platAll) staleDecodeTrace)).phrase = some phrase123 := by
  exact ⟨rfl, rfl, rfl, rfl, rfl, rfl⟩

/-- C9 counterexample: the controller alone does not make `isRecording`
and `isPhasePlaying` mutually exclusive — record and decode a phrase,
start the phase loop, then start a second recording while the loop plays:
once its `onstart` fires, both flags are true. -/
theorem recording_and_phase_simultaneous :
    (run opts0 (init platAll) bothTrueTrace).st.isRecording = true
      ∧ (run opts0 (init platAll) bothTrueTrace).st.isPhasePlaying = true := by
  exact ⟨rfl, rfl⟩

/-- C7 amended: when a pending `enable` fails at step 2–4, `isEnabling` is
cleared, `isEnabled` is unchanged (hence stays false), the human-readable
microphone error status is set, no recorder handle is ever stored, and a
retried `enable` on a supported not-yet-enabled controller proceeds to a
fresh acquisition.  A resume or microphone failure leaves the stream ref
unchanged; a recorder-constructor failure, however, leaves the freshly
acquired stream stored in the stream ref (it is never reused: the retry
acquires a new stream). -/
theorem enable_failure_cleanup (s : Sys) (out : EnableOutcome)
    (hp : s.pendingEnable = true) (hout : out ≠ .success) :
    (enableResolve out s).st.isEnabling = false
      ∧ (enableResolve out s).st.isEnabled = s.st.isEnabled
      ∧ (enableResolve out s).st.status = micErrorMsg
      ∧ (enableResolve out s).recorder = s.recorder
      ∧ (enableResolve out s).pendingEnable = false
      ∧ ((out = .failResume ∨ out = .failGetUserMedia) →
          (enableResolve out s).stream = s.stream)
      ∧ (out = .failRecorderCtor →
          (enableResolve out s).stream = some s.streamCount)
      ∧ (∀ c : Nat → ℚ, s.st.isSupported = true → s.st.isEnabled = false →
          (enableStart c (enableResolve out s)).pendingEnable = true) := by
  cases out with
  | success => exact absurd rfl hout
  | failResume =>
    rw [enableResolve_failResume hp]
    refine ⟨rfl, rfl, rfl, rfl, rfl, fun _ => rfl, fun h => absurd h (by decide), ?_⟩
    intro c hsup hen
    exact enableStart_pending c _ hsup hen rfl
  | failGetUserMedia =>
    rw [enableResolve_failGetUserMedia hp]
    refine ⟨rfl, rfl, rfl, rfl, rfl, fun _ => rfl, fun h => absurd h (by decide), ?_⟩
    intro c hsup hen
    exact enableStart_pending c _ hsup hen rfl
  | failRecorderCtor =>
    rw [enableResolve_failRecorderCtor hp]
    refine ⟨rfl, rfl, rfl, rfl, rfl, ?_, fun _ => rfl, ?_⟩
    · rintro (h | h) <;> exact absurd h (by decide)
    · intro c hsup hen
      exact enableStart_pending c _ hsup hen rfl

/-- Witness for C7 (amended): a microphone-permission failure of a
pending enable clears `isEnabling`, stores no recorder and leaves the
stream ref unchanged. -/
theorem enable_failure_cleanup_witness :
    (enableResolve .failGetUserMedia enablingSys).st.isEnabling = false
      ∧ (enableResolve .failGetUserMedia enablingSys).recorder = enablingSys.recorder
      ∧ (enableResolve .failGetUserMedia enablingSys).stream = enablingSys.stream := by
  have h := enable_failure_cleanup enablingSys .failGetUserMedia rfl (by decide)
  exact ⟨h.1, h.2.2.2.1, h.2.2.2.2.2.1 (Or.inr rfl)⟩

/-- C9 amended: `isRecording` and `isPhasePlaying` are never
simultaneously true in any state reachable when `startRecording` is only
issued in a settled controller — no phrase stored, no recorder callback
queued, no stop/decode stage of a previous session still in flight, not
playing and not recording (the discipline the spec calls normal
operation).  Without that restriction the flags can coincide, so the
unconditional claim fails on the code. -/
theorem recording_phase_exclusive_guarded (o : UsePhaseLooperOptions)
    (p : Platform) (s : Sys) (h : ReachG o p s) :
    ¬(s.st.isRecording = true ∧ s.st.isPhasePlaying = true) := by
  rintro ⟨hr, hp2⟩
  have hinv := reachG_recPhaseInv o p s h
  have h4 := (hinv.1 (Or.inl hr)).2.2.2
  rw [hp2] at h4
  exact nomatch h4

/-- Witness for C9 (amended) on a concrete guarded run: a fresh
controller followed by one `startRecording` issued in its quiet state. -/
theorem recording_phase_exclusive_guarded_witness :
    ¬((step opts0 (init platAll) .startRecording).st.isRecording = true
        ∧ (step opts0 (init platAll) .startRecording).st.isPhasePlaying = true) :=
  recording_phase_exclusive_guarded opts0 platAll _
    (ReachG.next _ _ ReachG.base (fun _ => ⟨rfl, rfl, rfl, rfl, rfl, rfl⟩))

/-- Witness for C6: a second `enable` right after a resolved first one,
and one issued while the first is still pending, both leave the
controller untouched. -/
theorem enable_noop_witness :
    enableStart clock0 enabledSys = enabledSys
      ∧ enableStart clock0 enablingSys = enablingSys := by
  constructor
  · exact enable_noop_when_enabled_or_enabling clock0 enabledSys rfl (Or.inl rfl)
  · exact enable_noop_when_enabled_or_enabling clock0 enablingSys rfl (Or.inr rfl)

end PhaseLooper
